import Mathlib

/-!
Verification of the sidhulabs-py library against its specification.

Shallow embedding of:
  src/sidhulabs/database/conn.py   (DataBaseConn and its subclasses)
  src/sidhulabs/elastic/client.py  (get_elastic_client)
  src/sidhulabs/elastic/documents.py (insert, delete)

Modelling conventions:
  * Python strings that are inspected character by character (SQL statements,
    table names) are modelled as `List Char`; configuration strings such as
    `db_type` are modelled as Lean `String`.
  * Python exceptions (subclasses of `Exception`) are modelled by the
    inductive `Exn`; `raise Exception(e) from e` becomes `Exn.wrapped e`.
  * Side effects (pragma execution, commit, rollback, close, schema creation,
    bulk calls, ...) are recorded in explicit event traces.
  * `time.sleep(0.1 * (2 ** attempts - 1))` durations are recorded in tenths
    of a second, so a sleep of `0.1 * (2^a - 1)` seconds is the natural
    number `2^a - 1`.
-/

namespace SidhuLabs

/-- Python exception values as raised by the embedded code: `err name msg` is
an instance of exception class `name` carrying message `msg`; `wrapped e`
models `raise Exception(e) from e`, a generic `Exception` whose argument and
`__cause__` are the original exception `e`. -/
inductive Exn where
  | err (name : String) (msg : List Char)
  | wrapped (cause : Exn)
deriving DecidableEq

/-- Constant `POSTGRES = "postgresql"` from conn.py. -/
def POSTGRES : String := "postgresql"

/-- Constant `SQLITE = "sqlite"` from conn.py. -/
def SQLITE : String := "sqlite"

/-- Constant `MSSQL = "mssql"` from conn.py. -/
def MSSQL : String := "mssql"

/-- Constant `MAX_RETRY_COUNT = 15` from conn.py. -/
def MAX_RETRY_COUNT : Nat := 15

/-- Value assigned by `SqliteConn.__init__`: `self.db_type = "sqllite"`
(conn.py line 408, spelled with a double l in the source). -/
def SqliteConn_db_type : String := "sqllite"

/-- Observable session operations performed by the managed-session context
manager and by `execute`. -/
inductive SessionEvent where
  | pragmaForeignKeys
  | pragmaCaseSensitiveLike
  | bodyRun
  | commit
  | rollback
  | close
deriving DecidableEq

/-- Embedding of the context manager produced by
`DataBaseConn._get_managed_session_maker` (conn.py lines 230-243):

    try:
        if self.db_type == SQLITE:
            session.execute("PRAGMA foreign_keys = ON;")
            session.execute("PRAGMA case_sensitive_like = true;")
        yield session
        session.commit()
    except Exception as e:
        session.rollback()
        raise Exception(e) from e
    finally:
        session.close()

The outcome of the caller-supplied body (the code run at `yield session`) is
passed in as `body : Except Exn Unit`.  The returned trace lists the session
operations in order; the returned `Except` is the overall outcome. -/
def make_managed_session (db_type : String) (body : Except Exn Unit) :
    Except Exn Unit × List SessionEvent :=
  let pragmas : List SessionEvent :=
    if db_type = SQLITE then
      [SessionEvent.pragmaForeignKeys, SessionEvent.pragmaCaseSensitiveLike]
    else []
  match body with
  | Except.ok _ =>
      (Except.ok (),
        pragmas ++ [SessionEvent.bodyRun, SessionEvent.commit, SessionEvent.close])
  | Except.error e =>
      (Except.error (Exn.wrapped e),
        pragmas ++ [SessionEvent.bodyRun, SessionEvent.rollback, SessionEvent.close])

/-- Embedding of `DataBaseConn._create_sqlalchemy_engine_with_retry`
(conn.py lines 247-270).  The behaviour of `sqlalchemy.inspect(engine)` on
attempt number `a` (attempts are numbered from 1, as in the source where
`attempts` is incremented at the top of the loop) is given by the
environment `inspect : Nat → Option Exn`: `none` means validation succeeds,
`some e` means it raises `e`.  Engine creation itself
(`self._create_sqlalchemy_engine()`) does not raise in this model; the claims
only concern validation outcomes.  The result pairs the overall outcome
(`Except.ok a` is the engine handle obtained on attempt `a`) with the list of
sleep durations, in tenths of a second, performed before each retry (the
source sleeps `0.1 * (2 ** attempts - 1)` seconds, i.e. `2 ^ a - 1` tenths).
The first argument `fuel` bounds the remaining retries; the top-level call
passes `MAX_RETRY_COUNT` and every call site keeps `attempts + fuel =
MAX_RETRY_COUNT`, so the `0` pattern corresponds to `attempts + 1 >
MAX_RETRY_COUNT`, where the source re-raises without retrying. -/
def retry_loop (inspect : Nat → Option Exn) : Nat → Nat → Except Exn Nat × List Nat
  | 0, attempts =>
    (match inspect (attempts + 1) with
     | none => (Except.ok (attempts + 1), [])
     | some e => (Except.error e, []))
  | fuel + 1, attempts =>
    (match inspect (attempts + 1) with
     | none => (Except.ok (attempts + 1), [])
     | some e =>
       if attempts + 1 < MAX_RETRY_COUNT then
         let r := retry_loop inspect fuel (attempts + 1)
         (r.1, (2 ^ (attempts + 1) - 1) :: r.2)
       else (Except.error e, []))

/-- Top-level entry of the retry logic: `attempts` starts at 0 and is
incremented to 1 on the first iteration. -/
def _create_sqlalchemy_engine_with_retry (inspect : Nat → Option Exn) :
    Except Exn Nat × List Nat :=
  retry_loop inspect MAX_RETRY_COUNT 0

/-- Environment for the C2 witness: validation fails on attempt 1 and
succeeds on attempt 2. -/
def inspectOnceFailing : Nat → Option Exn := fun a =>
  if a = 1 then some (Exn.err "OperationalError" "connection refused".data) else none

/-- Python `str.split(sep)` for a one-character separator test, on a string
modelled as a list of characters: splits at every separator character,
keeping empty pieces, so the result is never empty. -/
def pySplit (sep : Char → Bool) : List Char → List (List Char)
  | [] => [[]]
  | c :: cs =>
    let r := pySplit sep cs
    if sep c then [] :: r else (c :: r.headI) :: r.tail

/-- Python `table.split(".")` from `_get_table_name_schema` (conn.py 327). -/
def splitOnDot (l : List Char) : List (List Char) :=
  pySplit (fun c => c = '.') l

/-- Embedding of `DataBaseConn._get_table_name_schema` (conn.py 322-330):

    table_split = table.split(".")
    schema, name = (None, table) if len(table_split) != 2 else table_split
    return schema, name

The length-2 case is exactly the pattern `[schema, name]`. -/
def _get_table_name_schema (table : List Char) : Option (List Char) × List Char :=
  match splitOnDot table with
  | [schema, name] => (some schema, name)
  | _ => (none, table)

/-- Authentication a returned Elasticsearch client was built with. -/
inductive ElasticAuth where
  | noAuth
  | apiKeyAuth (api_id api_key : String)
deriving DecidableEq

/-- Embedding of `get_elastic_client` (client.py lines 7-50).  The optional
credentials (explicit arguments or the `ELASTIC_API_ID` / `ELASTIC_API_KEY`
environment variables picked up as defaults) arrive as `Option String`;
Python `assert cond, msg` raises an `AssertionError` carrying `msg` when
`cond` is false.  The returned client is modelled by its hosts entry and the
authentication it was built with. -/
def get_elastic_client (url : String) (api_id api_key : Option String)
    (no_creds : Bool) : Except Exn (String × ElasticAuth) :=
  if no_creds then
    Except.ok (url, ElasticAuth.noAuth)
  else
    match api_id with
    | none => Except.error (Exn.err "AssertionError"
        "Pass in Elastic API ID to function or set env var ELASTIC_API_ID".data)
    | some i =>
      match api_key with
      | none => Except.error (Exn.err "AssertionError"
          "Pass in Elastic API KEY to function or set env var ELASTIC_API_KEY".data)
      | some k => Except.ok (url, ElasticAuth.apiKeyAuth i k)

/-- Python value usable as an Elasticsearch document id: `str` or `int`. -/
inductive PyId where
  | str (s : String)
  | int (i : Int)
deriving DecidableEq

/-- The `docs` argument of `insert` (documents.py): a Python list of
documents, a single document (a dict), or a value of any other type. -/
inductive DocsArg (α : Type) where
  | list (l : List α)
  | dict (d : α)
  | other

/-- The `doc_ids` argument of `delete` (documents.py): a list of ids, a
single str/int id, or a value of any other type. -/
inductive IdsArg where
  | list (l : List PyId)
  | single (i : PyId)
  | other

/-- Calls issued to the Elasticsearch client by `insert` and `delete`. -/
inductive EsCall (α : Type) where
  | parallelBulkIndex (actions : List α)
  | indexCall (doc : α)
  | parallelBulkDelete (actions : List PyId)
  | deleteCall (i : PyId)

/-- Stream of per-item results produced by
`elasticsearch.helpers.parallel_bulk`: one result per action. -/
def parallel_bulk {α : Type} (actions : List α) : List α := actions

/-- Python `collections.deque(iterable, maxlen=0)`: the iterable is consumed
in full and nothing is kept.  Returns the kept elements (always `[]`) paired
with the number of stream elements consumed. -/
def deque_maxlen0 {α : Type} (l : List α) : List α × Nat := ([], l.length)

/-- Responses of `insert`. -/
inductive InsertResp (α : Type) where
  | deque (kept : List α) (consumed : Nat)
  | indexResp (doc : α)

/-- Responses of `delete`. -/
inductive DeleteResp where
  | deque (kept : List PyId) (consumed : Nat)
  | deleteResp (i : PyId)
deriving DecidableEq

/-- Embedding of `insert` (documents.py lines 65-72): a list triggers a
parallel bulk insert whose result stream is consumed by
`deque(..., maxlen=0)`; a dict triggers one direct `index` call whose
response is returned; any other type raises `ValueError` before any client
call.  The second component lists the client calls made. -/
def insert {α : Type} (docs : DocsArg α) :
    Except Exn (InsertResp α) × List (EsCall α) :=
  match docs with
  | DocsArg.list l =>
      let d := deque_maxlen0 (parallel_bulk l)
      (Except.ok (InsertResp.deque d.1 d.2), [EsCall.parallelBulkIndex l])
  | DocsArg.dict d =>
      (Except.ok (InsertResp.indexResp d), [EsCall.indexCall d])
  | DocsArg.other =>
      (Except.error (Exn.err "ValueError" "`docs` must be a list or a dict.".data), [])

/-- Embedding of `delete` (documents.py lines 102-108): a list of ids is
turned into delete actions (one action per id, each carrying that id) sent
through the same parallel-bulk mechanism, consumed by
`deque(..., maxlen=0)`; a single str/int id triggers one direct `delete`
call whose response is returned; any other type raises `ValueError` before
any client call. -/
def delete {α : Type} (doc_ids : IdsArg) :
    Except Exn DeleteResp × List (EsCall α) :=
  match doc_ids with
  | IdsArg.list l =>
      let actions := l.map (fun doc_id => doc_id)
      let d := deque_maxlen0 (parallel_bulk actions)
      (Except.ok (DeleteResp.deque d.1 d.2), [EsCall.parallelBulkDelete actions])
  | IdsArg.single i =>
      (Except.ok (DeleteResp.deleteResp i), [EsCall.deleteCall i])
  | IdsArg.other =>
      (Except.error
        (Exn.err "ValueError" "`doc_ids` must be a list, string, or integer.".data), [])

/-- Schema-qualified table identifier: (schema or None, table name). -/
abbrev SchemaTable := Option (List Char) × List Char

/-- External database state visible through the engine. -/
structure DbState where
  schemas : List (List Char)
  tables : List SchemaTable
deriving DecidableEq

/-- Connection object state: the six connection parameters assigned by
`DataBaseConn.__init__` (conn.py lines 86-91), the `db_type` assigned by the
subclass constructors before delegating, and the external database the
engine points at. -/
structure ConnState where
  host : Option String
  db : Option String
  user : Option String
  password : Option String
  port : Option String
  isolation_level : Option String
  db_type : String
  dbState : DbState
deriving DecidableEq

/-- Embedding of `DataBaseConn.table_exists` (conn.py lines 186-209):
`table in sqlalchemy.inspect(self.engine).get_table_names(schema=schema)`. -/
def table_exists (st : DbState) (table : List Char) (schema : Option (List Char)) :
    Bool :=
  (schema, table) ∈ st.tables

/-- Observable engine-level operations of `insert_from_dict` and its
helpers. -/
inductive DbEvent where
  | createSchema (name : List Char)
  | createAllTables
  | insertRow (table : SchemaTable)
deriving DecidableEq

/-- Embedding of `DataBaseConn._create_schema` (conn.py lines 313-320):

    if self.db_type != SQLITE:
        if schema_name not in self.engine.dialect.get_schema_names(self.engine):
            self.engine.execute(sqlalchemy.schema.CreateSchema(schema_name))

Schema creation goes through the engine directly (outside the managed
session), so it takes effect immediately. -/
def _create_schema (db_type : String) (st : DbState) (schema_name : List Char) :
    DbState × List DbEvent :=
  if db_type ≠ SQLITE then
    if schema_name ∉ st.schemas then
      ({ st with schemas := schema_name :: st.schemas },
        [DbEvent.createSchema schema_name])
    else (st, [])
  else (st, [])

/-- Embedding of `DataBaseConn._create_tables` (conn.py lines 298-311):
`Base.metadata.create_all(self.engine)` creates every table declared on the
declarative base that does not already exist.  The declared tables are the
`declared` argument. -/
def _create_tables (declared : List SchemaTable) (st : DbState) : DbState :=
  { st with tables := st.tables ++ declared.filter (fun t => t ∉ st.tables) }

/-- The `table` argument of `insert_from_dict` (conn.py lines 137-167):
either a declarative model class, contributing its `__tablename__` and the
optional `schema` entry of `__table_args__`, or a plain string. -/
inductive TableArg where
  | model (tablename : List Char) (schema : Option (List Char))
  | plain (s : List Char)

/-- Resolution of the `table` argument to (schema, table name)
(conn.py lines 163-167). -/
def resolve_table : TableArg → SchemaTable
  | TableArg.model tn sch => (sch, tn)
  | TableArg.plain s => _get_table_name_schema s

/-- The `if schema: self._create_schema(schema)` step (conn.py lines
169-170).  Python `if schema:` treats both `None` and the empty string as
falsy. -/
def schema_step (db_type : String) (st : DbState) :
    Option (List Char) → DbState × List DbEvent
  | some sname => if sname ≠ [] then _create_schema db_type st sname else (st, [])
  | none => (st, [])

/-- The final insert (conn.py lines 178-182): the insert statement runs
inside the managed session; the stated `target` row insert is recorded only
when the session commits. -/
def run_insert (c : ConnState) (ins_outcome : Except Exn Unit) (target : SchemaTable)
    (st : DbState) (evs : List DbEvent) : Except Exn Unit × List DbEvent × ConnState :=
  match make_managed_session c.db_type ins_outcome with
  | (Except.ok _, _) =>
      (Except.ok (), evs ++ [DbEvent.insertRow target], { c with dbState := st })
  | (Except.error e, _) => (Except.error e, evs, { c with dbState := st })

/-- Embedding of `DataBaseConn.insert_from_dict` (conn.py lines 137-184).
`base_tables` lists the tables declared on the declarative base (used by
`_create_tables`); `ins_outcome` is the outcome of executing the insert
statement inside the managed session.  Result: overall outcome, trace of
engine-level events in order, and the connection state after the call. -/
def insert_from_dict (c : ConnState) (base_tables : List SchemaTable)
    (table : TableArg) (ins_outcome : Except Exn Unit) :
    Except Exn Unit × List DbEvent × ConnState :=
  let resolved := resolve_table table
  let schema := resolved.1
  let table_name := resolved.2
  let step1 := schema_step c.db_type c.dbState schema
  if table_exists step1.1 table_name schema then
    run_insert c ins_outcome resolved step1.1 step1.2
  else
    match table with
    | TableArg.model _ _ =>
        run_insert c ins_outcome resolved (_create_tables base_tables step1.1)
          (step1.2 ++ [DbEvent.createAllTables])
    | TableArg.plain _ =>
        (Except.error (Exn.err "ValueError" (table_name ++ " does not exist!".data)),
          step1.2, { c with dbState := step1.1 })

/-- Python `str.split()` with no separator: split on whitespace, discarding
empty pieces. -/
def pySplitWs (l : List Char) : List (List Char) :=
  (pySplit Char.isWhitespace l).filter (fun t => t ≠ [])

/-- Python `str.lower()` on a string modelled as a list of characters. -/
def lowerChars (l : List Char) : List Char :=
  l.map Char.toLower

/-- Database-level effect of successfully committing a SQL statement. -/
inductive StmtEffect where
  | createTable (t : SchemaTable)
  | dropTable (t : SchemaTable)
deriving DecidableEq

def applyEffect (st : DbState) : StmtEffect → DbState
  | StmtEffect.createTable t => { st with tables := st.tables ++ [t] }
  | StmtEffect.dropTable t => { st with tables := st.tables.erase t }

def applyEffects (st : DbState) (l : List StmtEffect) : DbState :=
  l.foldl applyEffect st

/-- A SQL statement handed to `execute`: its text, the outcome of running it
against the database, and its effects on the database when committed. -/
structure Statement where
  text : List Char
  outcome : Except Exn Unit
  effects : List StmtEffect

/-- Result value of `execute` on success. -/
inductive ExecResult where
  | resultSet
deriving DecidableEq

/-- Embedding of `DataBaseConn.execute` (conn.py lines 104-135):

    command = statement.split()[0].lower()
    if command == "select":
        res = self.session.execute(statement)
    else:
        with self.ManagedSessionMaker() as db:
            res = db.execute(statement)
    return res

Indexing `[0]` into the empty token list raises `IndexError`.  The select
branch runs on the long-lived `self.session` with no commit; the other
branch runs inside the managed session, whose effects become durable only on
commit. -/
def execute (c : ConnState) (statement : Statement) :
    Except Exn ExecResult × List SessionEvent × ConnState :=
  match pySplitWs statement.text with
  | [] => (Except.error (Exn.err "IndexError" "list index out of range".data), [], c)
  | tok :: _ =>
    let command := lowerChars tok
    if command = "select".data then
      match statement.outcome with
      | Except.ok _ => (Except.ok ExecResult.resultSet, [SessionEvent.bodyRun], c)
      | Except.error e => (Except.error e, [SessionEvent.bodyRun], c)
    else
      match make_managed_session c.db_type statement.outcome with
      | (Except.ok _, tr) =>
          (Except.ok ExecResult.resultSet, tr,
            { c with dbState := applyEffects c.dbState statement.effects })
      | (Except.error e, tr) => (Except.error e, tr, c)

/-- Connection state of `SqliteConn(db="/")` (conn.py lines 404-410): the
parent constructor is called with empty strings and `db_type` is the
misspelled `"sqllite"`; the example database has schema `s` absent and table
`s.t` present. -/
def sqliteConnExample : ConnState :=
  { host := some "", db := some "/", user := some "", password := some "",
    port := some "", isolation_level := none,
    db_type := SqliteConn_db_type,
    dbState := { schemas := [], tables := [(some ['s'], ['t'])] } }

/-- Method-call view of `table_exists`: the call returns its boolean and
leaves the connection object as it was. -/
def table_exists_call (c : ConnState) (table : List Char)
    (schema : Option (List Char)) : Bool × ConnState :=
  (table_exists c.dbState table schema, c)

/-! Helper lemmas. -/

lemma pySplit_ne_nil (sep : Char → Bool) (l : List Char) : pySplit sep l ≠ [] := by
  cases l with
  | nil => simp [pySplit]
  | cons c cs => by_cases h : sep c <;> simp [pySplit, h]

lemma pySplit_cons_sep (sep : Char → Bool) (c : Char) (cs : List Char) (h : sep c = true) :
    pySplit sep (c :: cs) = [] :: pySplit sep cs := by
  simp [pySplit, h]

lemma pySplit_cons_not_sep (sep : Char → Bool) (c : Char) (cs : List Char)
    (h : sep c = false) :
    pySplit sep (c :: cs) =
      (c :: (pySplit sep cs).headI) :: (pySplit sep cs).tail := by
  simp [pySplit, h]

lemma splitOnDot_length (l : List Char) :
    (splitOnDot l).length = l.count '.' + 1 := by
  induction l with
  | nil => simp [splitOnDot, pySplit]
  | cons c cs ih =>
      have hpos : 0 < (pySplit (fun c => c = '.') cs).length :=
        List.length_pos.mpr (pySplit_ne_nil _ _)
      by_cases hc : c = '.'
      · rw [splitOnDot, pySplit_cons_sep _ _ _ (by simp [hc])]
        rw [splitOnDot] at ih
        simp [List.count_cons, hc, ih]
      · rw [splitOnDot, pySplit_cons_not_sep _ _ _ (by simp [hc])]
        rw [splitOnDot] at ih
        simp only [List.length_cons, List.length_tail, List.count_cons]
        rw [ih] at hpos ⊢
        simp [hc]

lemma splitOnDot_no_dot (l : List Char) (h : l.count '.' = 0) :
    splitOnDot l = [l] := by
  induction l with
  | nil => simp [splitOnDot, pySplit]
  | cons c cs ih =>
      rw [List.count_cons] at h
      by_cases hc : c = '.'
      · simp [hc] at h
      · have hcs : cs.count '.' = 0 := by
          by_contra hne
          simp [hc] at h
          exact hne h
        rw [splitOnDot, pySplit_cons_not_sep _ _ _ (by simp [hc])]
        rw [splitOnDot] at ih
        rw [ih hcs]
        simp

lemma splitOnDot_append (s n : List Char) (hs : s.count '.' = 0) :
    splitOnDot (s ++ '.' :: n) = s :: splitOnDot n := by
  induction s with
  | nil =>
      rw [List.nil_append, splitOnDot, pySplit_cons_sep _ _ _ (by simp)]
      rfl
  | cons c cs ih =>
      rw [List.count_cons] at hs
      by_cases hc : c = '.'
      · simp [hc] at hs
      · have hcs : cs.count '.' = 0 := by
          by_contra hne
          simp [hc] at hs
          exact hne hs
        rw [List.cons_append, splitOnDot, pySplit_cons_not_sep _ _ _ (by simp [hc])]
        rw [splitOnDot] at ih
        rw [ih hcs]
        simp

lemma count_one_decomp (l : List Char) (h : l.count '.' = 1) :
    ∃ s n, l = s ++ '.' :: n ∧ s.count '.' = 0 ∧ n.count '.' = 0 := by
  induction l with
  | nil => simp at h
  | cons c cs ih =>
      rw [List.count_cons] at h
      by_cases hc : c = '.'
      · refine ⟨[], cs, by simp [hc], by simp, ?_⟩
        simp [hc] at h
        omega
      · have hcs : cs.count '.' = 1 := by simp [hc] at h; omega
        obtain ⟨s, n, hl, hs, hn⟩ := ih hcs
        exact ⟨c :: s, n, by simp [hl], by simp [List.count_cons, hs, hc], hn⟩

lemma retry_loop_success (inspect : Nat → Option Exn) :
    ∀ fuel attempts k, attempts + fuel = MAX_RETRY_COUNT →
      attempts < k → k ≤ MAX_RETRY_COUNT →
      inspect k = none →
      (∀ j, attempts < j → j < k → inspect j ≠ none) →
      retry_loop inspect fuel attempts =
        (Except.ok k,
          (List.range' (attempts + 1) (k - 1 - attempts)).map (fun a => 2 ^ a - 1)) := by
  intro fuel
  induction fuel with
  | zero =>
      intro attempts k hinv hlt hle _ _
      rw [MAX_RETRY_COUNT] at hinv hle
      omega
  | succ fuel ih =>
      intro attempts k hinv hlt hle hk hfail
      rcases Nat.lt_or_ge (attempts + 1) k with hcase | hcase
      · obtain ⟨e, he⟩ := Option.ne_none_iff_exists'.mp (hfail (attempts + 1) (by omega) hcase)
        have hrec := ih (attempts + 1) k (by omega) hcase hle hk
          (fun j h1 h2 => hfail j (by omega) h2)
        have hif : attempts + 1 < MAX_RETRY_COUNT := by omega
        have hlen : k - 1 - attempts = (k - 1 - (attempts + 1)) + 1 := by omega
        simp only [retry_loop, he, if_pos hif, hrec, hlen, List.range'_succ, List.map_cons]
      · have hk' : k = attempts + 1 := by omega
        subst hk'
        have hlen : attempts + 1 - 1 - attempts = 0 := by omega
        simp only [retry_loop, hk, hlen]
        simp

lemma retry_loop_all_fail (inspect : Nat → Option Exn) (e : Nat → Exn) :
    ∀ fuel attempts, attempts + fuel = MAX_RETRY_COUNT →
      attempts < MAX_RETRY_COUNT →
      (∀ j, attempts < j → j ≤ MAX_RETRY_COUNT → inspect j = some (e j)) →
      (retry_loop inspect fuel attempts).1 = Except.error (e MAX_RETRY_COUNT) := by
  intro fuel
  induction fuel with
  | zero =>
      intro attempts hinv hlt _
      omega
  | succ fuel ih =>
      intro attempts hinv hlt hfail
      have ha : inspect (attempts + 1) = some (e (attempts + 1)) :=
        hfail (attempts + 1) (by omega) (by omega)
      rcases Nat.lt_or_ge (attempts + 1) MAX_RETRY_COUNT with hcase | hcase
      · have hrec := ih (attempts + 1) (by omega) hcase
          (fun j h1 h2 => hfail j (by omega) h2)
        simp only [retry_loop, ha, if_pos hcase]
        exact hrec
      · have hk : attempts + 1 = MAX_RETRY_COUNT := by omega
        simp only [retry_loop, ha, if_neg (by omega : ¬ attempts + 1 < MAX_RETRY_COUNT)]
        rw [hk]

lemma schema_step_tables (db_type : String) (st : DbState)
    (schema : Option (List Char)) :
    (schema_step db_type st schema).1.tables = st.tables := by
  rcases schema with _ | sname
  · rfl
  · rw [schema_step]
    split
    · rw [_create_schema]
      split
      · split <;> rfl
      · rfl
    · rfl

lemma table_exists_congr (st st' : DbState) (h : st.tables = st'.tables)
    (t : List Char) (s : Option (List Char)) :
    table_exists st t s = table_exists st' t s := by
  unfold table_exists
  rw [h]

lemma schema_step_events (db_type : String) (st : DbState)
    (schema : Option (List Char)) (e : DbEvent)
    (h : e ∈ (schema_step db_type st schema).2) :
    ∃ m, e = DbEvent.createSchema m := by
  rcases schema with _ | sname
  · simp [schema_step] at h
  · rw [schema_step] at h
    split at h
    · rw [_create_schema] at h
      split at h
      · split at h
        · simp at h
          exact ⟨sname, h⟩
        · simp at h
      · simp at h
    · simp at h

lemma run_insert_ok (c : ConnState) (target : SchemaTable) (st : DbState)
    (evs : List DbEvent) :
    run_insert c (Except.ok ()) target st evs =
      (Except.ok (), evs ++ [DbEvent.insertRow target], { c with dbState := st }) := by
  rw [run_insert, make_managed_session]

lemma run_insert_state (c : ConnState) (io : Except Exn Unit) (target : SchemaTable)
    (st : DbState) (evs : List DbEvent) :
    (run_insert c io target st evs).2.2 = { c with dbState := st } := by
  rw [run_insert]
  rcases hm : make_managed_session c.db_type io with ⟨r, tr⟩
  cases r <;> rfl

lemma pySplitWs_all_ws (l : List Char) (h : ∀ ch ∈ l, ch.isWhitespace) :
    pySplitWs l = [] := by
  induction l with
  | nil => rfl
  | cons c cs ih =>
      have hc : Char.isWhitespace c = true := h c (List.mem_cons_self c cs)
      rw [pySplitWs, pySplit_cons_sep _ _ _ hc]
      have := ih (fun ch hch => h ch (List.mem_cons_of_mem c hch))
      rw [pySplitWs] at this
      simpa using this

lemma commit_mem_managed_ok (db_type : String) :
    SessionEvent.commit ∈ (make_managed_session db_type (Except.ok ())).2 := by
  by_cases h : db_type = SQLITE <;> simp [make_managed_session, h]

lemma execute_state (c : ConnState) (stmt : Statement) :
    ∃ st, (execute c stmt).2.2 = { c with dbState := st } := by
  rw [execute]
  rcases htok : pySplitWs stmt.text with _ | ⟨tok, rest⟩
  · exact ⟨c.dbState, rfl⟩
  · by_cases hsel : lowerChars tok = "select".data
    · simp only [hsel, if_true]
      rcases ho : stmt.outcome with e | u <;> exact ⟨c.dbState, rfl⟩
    · simp only [hsel, if_false]
      rcases hm : make_managed_session c.db_type stmt.outcome with ⟨r, tr⟩
      cases r
      · exact ⟨c.dbState, rfl⟩
      · exact ⟨applyEffects c.dbState stmt.effects, rfl⟩

lemma insert_from_dict_state (c : ConnState) (base_tables : List SchemaTable)
    (table : TableArg) (io : Except Exn Unit) :
    ∃ st, (insert_from_dict c base_tables table io).2.2 = { c with dbState := st } := by
  simp only [insert_from_dict]
  split
  · exact ⟨_, run_insert_state c io _ _ _⟩
  · rcases table with ⟨tn, sch⟩ | s
    · exact ⟨_, run_insert_state c io _ _ _⟩
    · exact ⟨_, rfl⟩

/-! Claim theorems. -/

/-- Claim C1: in a managed-session block, if the body completes without
raising the session is committed (and never rolled back); if the body raises
any exception `e`, the session is rolled back, never committed, and the
result is the original exception re-raised wrapped in a generic exception
preserving `e` as its cause; and on every path the session is closed exactly
once. -/
theorem C1_managed_session (db_type : String) (body : Except Exn Unit) :
    (body = Except.ok () →
      (make_managed_session db_type body).1 = Except.ok () ∧
      SessionEvent.commit ∈ (make_managed_session db_type body).2 ∧
      SessionEvent.rollback ∉ (make_managed_session db_type body).2) ∧
    (∀ e : Exn, body = Except.error e →
      (make_managed_session db_type body).1 = Except.error (Exn.wrapped e) ∧
      SessionEvent.rollback ∈ (make_managed_session db_type body).2 ∧
      SessionEvent.commit ∉ (make_managed_session db_type body).2) ∧
    (make_managed_session db_type body).2.count SessionEvent.close = 1 := by
  by_cases h : db_type = SQLITE <;>
    cases body <;>
      simp [make_managed_session, h]

/-- Witness for C1 at a concrete database type and body outcome. -/
theorem C1_managed_session_witness :
    (make_managed_session POSTGRES (Except.ok ())).1 = Except.ok () ∧
    SessionEvent.commit ∈ (make_managed_session POSTGRES (Except.ok ())).2 ∧
    (make_managed_session POSTGRES (Except.ok ())).2.count SessionEvent.close = 1 := by
  have h := C1_managed_session POSTGRES (Except.ok ())
  exact ⟨(h.1 rfl).1, (h.1 rfl).2.1, h.2.2⟩

/-- Claim C2: if connection validation succeeds on attempt `k` with
`1 ≤ k ≤ 15` (all earlier attempts failing), the engine handle built on
attempt `k` is returned with no error, and the sleeps performed before the
retries are exactly `0.1 * (2^j - 1)` seconds (recorded as `2^j - 1` tenths)
for each failed attempt `j = 1, ..., k-1`; if all 15 attempts fail, the
underlying error raised on the 15th attempt propagates unchanged (it is not
wrapped). -/
theorem C2_engine_retry (inspect : Nat → Option Exn) :
    (∀ k, 1 ≤ k → k ≤ MAX_RETRY_COUNT → inspect k = none →
      (∀ j, 1 ≤ j → j < k → inspect j ≠ none) →
      _create_sqlalchemy_engine_with_retry inspect =
        (Except.ok k, (List.range' 1 (k - 1)).map (fun a => 2 ^ a - 1))) ∧
    (∀ e : Nat → Exn, (∀ j, 1 ≤ j → j ≤ MAX_RETRY_COUNT → inspect j = some (e j)) →
      (_create_sqlalchemy_engine_with_retry inspect).1 =
        Except.error (e MAX_RETRY_COUNT)) := by
  constructor
  · intro k h1 h15 hk hfail
    have := retry_loop_success inspect MAX_RETRY_COUNT 0 k rfl (by omega) h15 hk
      (fun j hj1 hj2 => hfail j (by omega) hj2)
    simpa [_create_sqlalchemy_engine_with_retry] using this
  · intro e hfail
    have := retry_loop_all_fail inspect e MAX_RETRY_COUNT 0 rfl (by decide)
      (fun j hj1 hj2 => hfail j (by omega) hj2)
    simpa [_create_sqlalchemy_engine_with_retry] using this

/-- Witness for C2: with one transient failure, the engine from attempt 2 is
returned and one sleep of 1 tenth of a second (0.1 * (2^1 - 1)) happened. -/
theorem C2_engine_retry_witness :
    _create_sqlalchemy_engine_with_retry inspectOnceFailing = (Except.ok 2, [1]) := by
  have h := (C2_engine_retry inspectOnceFailing).1 2 (by omega) (by decide)
    (by simp [inspectOnceFailing])
    (by
      intro j h1 h2
      have : j = 1 := by omega
      subst this
      simp [inspectOnceFailing])
  simpa using h

/-- Claim C3 (code evaluation): `SqliteConn.__init__` stores the db type
`"sqllite"`, which differs from the constant `SQLITE = "sqlite"` that the
managed-session maker compares against, so on a `SqliteConn` no pragma is
executed at session start; with the db type the constant actually names, the
two pragmas would run before the body. -/
theorem C3_sqlite_pragmas_not_executed :
    SqliteConn_db_type ≠ SQLITE ∧
    (make_managed_session SqliteConn_db_type (Except.ok ())).2 =
      [SessionEvent.bodyRun, SessionEvent.commit, SessionEvent.close] ∧
    (make_managed_session SQLITE (Except.ok ())).2 =
      [SessionEvent.pragmaForeignKeys, SessionEvent.pragmaCaseSensitiveLike,
        SessionEvent.bodyRun, SessionEvent.commit, SessionEvent.close] := by
  refine ⟨by decide, by decide, by decide⟩

/-- Claim C4 (code evaluation): on a `SqliteConn`, `insert_from_dict` with a
schema-qualified table does NOT skip schema creation — the guard
`self.db_type != SQLITE` sees `"sqllite"`, which differs from `"sqlite"`, so
a `CreateSchema` is issued; with the db type equal to the constant `SQLITE`
the creation would be skipped. -/
theorem C4_sqlite_schema_creation_not_skipped :
    SqliteConn_db_type ≠ SQLITE ∧
    (insert_from_dict sqliteConnExample [] (TableArg.plain ['s', '.', 't'])
        (Except.ok ())).2.1 =
      [DbEvent.createSchema ['s'], DbEvent.insertRow (some ['s'], ['t'])] ∧
    (insert_from_dict { sqliteConnExample with db_type := SQLITE } []
        (TableArg.plain ['s', '.', 't']) (Except.ok ())).2.1 =
      [DbEvent.insertRow (some ['s'], ['t'])] := by
  refine ⟨by decide, by decide, by decide⟩

/-- Claim C5: a plain table string with exactly one dot is split into
(schema, table) at that dot; a string with zero dots or more than one dot
yields (no schema, the whole unmodified string).  The first conjunct states
the split at the unique dot, the second the no-split case, and the third
that a string with exactly one dot indeed decomposes around that dot. -/
theorem C5_table_name_schema (table : List Char) :
    (∀ s n, table = s ++ '.' :: n → s.count '.' = 0 → n.count '.' = 0 →
      _get_table_name_schema table = (some s, n)) ∧
    (table.count '.' ≠ 1 → _get_table_name_schema table = (none, table)) ∧
    (table.count '.' = 1 →
      ∃ s n, table = s ++ '.' :: n ∧ s.count '.' = 0 ∧ n.count '.' = 0) := by
  refine ⟨?_, ?_, count_one_decomp table⟩
  · intro s n hl hs hn
    subst hl
    rw [_get_table_name_schema, splitOnDot_append s n hs, splitOnDot_no_dot n hn]
  · intro hcount
    have hlen : (splitOnDot table).length ≠ 2 := by
      rw [splitOnDot_length]
      omega
    rw [_get_table_name_schema]
    rcases h : splitOnDot table with _ | ⟨a, _ | ⟨b, _ | ⟨c, ts⟩⟩⟩ <;> simp_all

/-- Witness for C5 at the concrete string `a.b` (one dot) and at `a.b.c`
(two dots, treated as one opaque name). -/
theorem C5_table_name_schema_witness :
    _get_table_name_schema ['a', '.', 'b'] = (some ['a'], ['b']) ∧
    _get_table_name_schema ['a', '.', 'b', '.', 'c'] =
      (none, ['a', '.', 'b', '.', 'c']) := by
  refine ⟨(C5_table_name_schema _).1 ['a'] ['b'] rfl (by decide) (by decide), ?_⟩
  exact (C5_table_name_schema _).2.1 (by decide)

/-- Claim C6: when the resolved table does not exist, `insert_from_dict`
with a declarative model creates all declared tables and the insert
proceeds, while with a plain string it fails with a ValueError-class error
saying the table does not exist and performs no insert (and creates no
tables). -/
theorem C6_insert_missing_table (c : ConnState) (base_tables : List SchemaTable) :
    (∀ tn sch, table_exists c.dbState tn sch = false →
      (insert_from_dict c base_tables (TableArg.model tn sch) (Except.ok ())).1 =
        Except.ok () ∧
      DbEvent.createAllTables ∈
        (insert_from_dict c base_tables (TableArg.model tn sch) (Except.ok ())).2.1 ∧
      DbEvent.insertRow (sch, tn) ∈
        (insert_from_dict c base_tables (TableArg.model tn sch) (Except.ok ())).2.1) ∧
    (∀ s sch tn, _get_table_name_schema s = (sch, tn) →
      table_exists c.dbState tn sch = false →
      (insert_from_dict c base_tables (TableArg.plain s) (Except.ok ())).1 =
        Except.error (Exn.err "ValueError" (tn ++ " does not exist!".data)) ∧
      (∀ t, DbEvent.insertRow t ∉
        (insert_from_dict c base_tables (TableArg.plain s) (Except.ok ())).2.1) ∧
      DbEvent.createAllTables ∉
        (insert_from_dict c base_tables (TableArg.plain s) (Except.ok ())).2.1) := by
  constructor
  · intro tn sch hex
    have hex1 : table_exists (schema_step c.db_type c.dbState sch).1 tn sch = false := by
      rw [table_exists_congr _ c.dbState (schema_step_tables _ _ _), hex]
    simp only [insert_from_dict, resolve_table, hex1, Bool.false_eq_true, if_false,
      run_insert_ok]
    simp
  · intro s sch tn hsplit hex
    have hex1 : table_exists (schema_step c.db_type c.dbState sch).1 tn sch = false := by
      rw [table_exists_congr _ c.dbState (schema_step_tables _ _ _), hex]
    simp only [insert_from_dict, resolve_table, hsplit, hex1, Bool.false_eq_true,
      if_false]
    refine ⟨by trivial, ?_, ?_⟩
    · intro t ht
      obtain ⟨m, hm⟩ := schema_step_events _ _ _ _ ht
      exact DbEvent.noConfusion hm
    · intro ht
      obtain ⟨m, hm⟩ := schema_step_events _ _ _ _ ht
      exact DbEvent.noConfusion hm

/-- Witness for C6: inserting into a missing table named by a plain string
fails with the ValueError, and a declarative model gets its tables
created. -/
theorem C6_insert_missing_table_witness :
    (insert_from_dict
        { host := none, db := none, user := none, password := none, port := none,
          isolation_level := none, db_type := "postgresql",
          dbState := { schemas := [], tables := [] } }
        [] (TableArg.plain ['f', 'o', 'o']) (Except.ok ())).1 =
      Except.error (Exn.err "ValueError" (['f', 'o', 'o'] ++ " does not exist!".data)) ∧
    DbEvent.createAllTables ∈
      (insert_from_dict
        { host := none, db := none, user := none, password := none, port := none,
          isolation_level := none, db_type := "postgresql",
          dbState := { schemas := [], tables := [] } }
        [(none, ['f', 'o', 'o'])] (TableArg.model ['f', 'o', 'o'] none)
        (Except.ok ())).2.1 := by
  constructor
  · exact ((C6_insert_missing_table _ _).2 ['f', 'o', 'o'] none ['f', 'o', 'o']
      (by decide) (by decide)).1
  · exact ((C6_insert_missing_table _ _).1 ['f', 'o', 'o'] none (by decide)).2.1

/-- Claim C7: with `no_creds` true the constructor returns an unauthenticated
client and never raises, whatever the credentials; with `no_creds` false it
raises an assertion-style error exactly when `api_id` or `api_key` is null,
and otherwise returns a client built with API-key authentication from the
pair. -/
theorem C7_get_elastic_client (url : String) (api_id api_key : Option String)
    (no_creds : Bool) :
    (no_creds = true →
      get_elastic_client url api_id api_key no_creds =
        Except.ok (url, ElasticAuth.noAuth)) ∧
    (no_creds = false →
      ((∃ msg, get_elastic_client url api_id api_key no_creds =
          Except.error (Exn.err "AssertionError" msg)) ↔
        api_id = none ∨ api_key = none)) ∧
    (no_creds = false → ∀ i k, api_id = some i → api_key = some k →
      get_elastic_client url api_id api_key no_creds =
        Except.ok (url, ElasticAuth.apiKeyAuth i k)) := by
  cases no_creds <;> cases api_id <;> cases api_key <;>
    simp [get_elastic_client]

/-- Witness for C7: no credentials are needed when `no_creds` is set, and
missing credentials with `no_creds` unset produce the assertion error. -/
theorem C7_get_elastic_client_witness :
    get_elastic_client "http://localhost:9200" none none true =
      Except.ok ("http://localhost:9200", ElasticAuth.noAuth) ∧
    (∃ msg, get_elastic_client "http://localhost:9200" none none false =
      Except.error (Exn.err "AssertionError" msg)) := by
  refine ⟨(C7_get_elastic_client "http://localhost:9200" none none true).1 rfl, ?_⟩
  exact ((C7_get_elastic_client "http://localhost:9200" none none false).2.1 rfl).mpr
    (Or.inl rfl)

/-- Claim C8: for `insert` and `delete`, a collection argument triggers a
single parallel bulk call whose result stream is fully consumed (one
consumption per item) and discarded (nothing kept, so no per-item result is
returned); a single document or id triggers one direct client call whose
response is returned; any other argument raises a ValueError-class error
with no client call at all. -/
theorem C8_insert_delete (α : Type) (docs : DocsArg α) (doc_ids : IdsArg) :
    (∀ l, docs = DocsArg.list l →
      insert docs = (Except.ok (InsertResp.deque [] l.length),
        [EsCall.parallelBulkIndex l])) ∧
    (∀ d, docs = DocsArg.dict d →
      insert docs = (Except.ok (InsertResp.indexResp d), [EsCall.indexCall d])) ∧
    (docs = DocsArg.other →
      (∃ msg, (insert docs).1 = Except.error (Exn.err "ValueError" msg)) ∧
      (insert docs).2 = []) ∧
    (∀ l, doc_ids = IdsArg.list l →
      delete doc_ids = ((Except.ok (DeleteResp.deque [] l.length) :
          Except Exn DeleteResp), ([EsCall.parallelBulkDelete l] : List (EsCall α)))) ∧
    (∀ i, doc_ids = IdsArg.single i →
      delete doc_ids = ((Except.ok (DeleteResp.deleteResp i) :
          Except Exn DeleteResp), ([EsCall.deleteCall i] : List (EsCall α)))) ∧
    (doc_ids = IdsArg.other →
      (∃ msg, (delete doc_ids : Except Exn DeleteResp × List (EsCall α)).1 =
        Except.error (Exn.err "ValueError" msg)) ∧
      (delete doc_ids : Except Exn DeleteResp × List (EsCall α)).2 = []) := by
  refine ⟨?_, ?_, ?_, ?_, ?_, ?_⟩ <;>
    first
      | (intro l h; subst h; simp [insert, delete, deque_maxlen0, parallel_bulk])
      | (intro h; subst h; simp [insert, delete])

/-- Witness for C8 at concrete arguments: a two-document bulk insert, a
single-document insert, and a bad-typed delete argument. -/
theorem C8_insert_delete_witness :
    insert (DocsArg.list [1, 2]) =
      ((Except.ok (InsertResp.deque [] 2) : Except Exn (InsertResp Nat)),
        [EsCall.parallelBulkIndex [1, 2]]) ∧
    insert (DocsArg.dict 7) =
      ((Except.ok (InsertResp.indexResp 7) : Except Exn (InsertResp Nat)),
        [EsCall.indexCall 7]) ∧
    (∃ msg, (delete IdsArg.other : Except Exn DeleteResp × List (EsCall Nat)).1 =
      Except.error (Exn.err "ValueError" msg)) := by
  have h := C8_insert_delete Nat (DocsArg.list [1, 2]) IdsArg.other
  have h2 := C8_insert_delete Nat (DocsArg.dict 7) IdsArg.other
  exact ⟨h.1 [1, 2] rfl, h2.2.1 7 rfl, (h.2.2.2.2.2 rfl).1⟩

/-- Claim C9: after `execute`, `insert_from_dict` or `table_exists`, the six
connection parameters (host, database name, user, password, port, isolation
level) are exactly what the constructor set: the operations may change only
the external database state. -/
theorem C9_connection_params_frame (c : ConnState) (stmt : Statement)
    (base_tables : List SchemaTable) (table : TableArg) (io : Except Exn Unit)
    (tname : List Char) (sch : Option (List Char)) :
    ((execute c stmt).2.2.host = c.host ∧
      (execute c stmt).2.2.db = c.db ∧
      (execute c stmt).2.2.user = c.user ∧
      (execute c stmt).2.2.password = c.password ∧
      (execute c stmt).2.2.port = c.port ∧
      (execute c stmt).2.2.isolation_level = c.isolation_level) ∧
    ((insert_from_dict c base_tables table io).2.2.host = c.host ∧
      (insert_from_dict c base_tables table io).2.2.db = c.db ∧
      (insert_from_dict c base_tables table io).2.2.user = c.user ∧
      (insert_from_dict c base_tables table io).2.2.password = c.password ∧
      (insert_from_dict c base_tables table io).2.2.port = c.port ∧
      (insert_from_dict c base_tables table io).2.2.isolation_level =
        c.isolation_level) ∧
    ((table_exists_call c tname sch).2.host = c.host ∧
      (table_exists_call c tname sch).2.db = c.db ∧
      (table_exists_call c tname sch).2.user = c.user ∧
      (table_exists_call c tname sch).2.password = c.password ∧
      (table_exists_call c tname sch).2.port = c.port ∧
      (table_exists_call c tname sch).2.isolation_level = c.isolation_level) := by
  obtain ⟨st1, h1⟩ := execute_state c stmt
  obtain ⟨st2, h2⟩ := insert_from_dict_state c base_tables table io
  rw [h1, h2]
  exact ⟨⟨rfl, rfl, rfl, rfl, rfl, rfl⟩, ⟨rfl, rfl, rfl, rfl, rfl, rfl⟩,
    ⟨rfl, rfl, rfl, rfl, rfl, rfl⟩⟩

/-- Witness for C9 at concrete operations on the example connection. -/
theorem C9_connection_params_frame_witness :
    (execute sqliteConnExample ⟨"DROP TABLE t".data, Except.ok (), []⟩).2.2.host =
      sqliteConnExample.host ∧
    (insert_from_dict sqliteConnExample [] (TableArg.plain ['t'])
      (Except.ok ())).2.2.db = sqliteConnExample.db := by
  have h := C9_connection_params_frame sqliteConnExample
    ⟨"DROP TABLE t".data, Except.ok (), []⟩ [] (TableArg.plain ['t'])
    (Except.ok ()) ['t'] none
  exact ⟨h.1.1, h.2.1.2.1⟩

/-- Claim C10: `execute` on a whitespace-only or empty statement raises an
IndexError with no database call and no state change; when the first token
lowercased is `select`, the statement runs on the long-lived session outside
any managed scope (the trace is the bare body run, with no commit) and the
state is unchanged; for any other first token it runs inside a managed
session (the trace is exactly the managed-session trace), which commits on
success. -/
theorem C10_execute_dispatch (c : ConnState) (stmt : Statement) :
    ((∀ ch ∈ stmt.text, ch.isWhitespace) →
      execute c stmt =
        (Except.error (Exn.err "IndexError" "list index out of range".data), [], c)) ∧
    (∀ tok rest, pySplitWs stmt.text = tok :: rest →
      lowerChars tok = "select".data →
      (execute c stmt).2.1 = [SessionEvent.bodyRun] ∧
      SessionEvent.commit ∉ (execute c stmt).2.1 ∧
      (execute c stmt).2.2 = c) ∧
    (∀ tok rest, pySplitWs stmt.text = tok :: rest →
      lowerChars tok ≠ "select".data →
      (execute c stmt).2.1 = (make_managed_session c.db_type stmt.outcome).2 ∧
      (stmt.outcome = Except.ok () →
        SessionEvent.commit ∈ (execute c stmt).2.1)) := by
  refine ⟨?_, ?_, ?_⟩
  · intro h
    rw [execute, pySplitWs_all_ws stmt.text h]
  · intro tok rest htok hsel
    rw [execute, htok]
    simp only [hsel, if_true]
    rcases ho : stmt.outcome with e | u <;> simp
  · intro tok rest htok hsel
    rw [execute, htok]
    simp only [hsel, if_false]
    rcases hm : make_managed_session c.db_type stmt.outcome with ⟨r, tr⟩
    constructor
    · cases r <;> rfl
    · intro ho
      rw [ho] at hm
      have := commit_mem_managed_ok c.db_type
      rw [hm] at this
      cases r <;> simpa using this

/-- Witness for C10 at three concrete statements: whitespace-only, a select,
and a create-table statement. -/
theorem C10_execute_dispatch_witness :
    execute sqliteConnExample ⟨"  ".data, Except.ok (), []⟩ =
      (Except.error (Exn.err "IndexError" "list index out of range".data), [],
        sqliteConnExample) ∧
    (execute sqliteConnExample ⟨"SELECT * FROM t".data, Except.ok (), []⟩).2.1 =
      [SessionEvent.bodyRun] ∧
    SessionEvent.commit ∈
      (execute sqliteConnExample ⟨"CREATE TABLE u(x int)".data, Except.ok (), []⟩).2.1 := by
  refine ⟨?_, ?_, ?_⟩
  · exact (C10_execute_dispatch sqliteConnExample ⟨"  ".data, Except.ok (), []⟩).1
      (by decide)
  · exact ((C10_execute_dispatch sqliteConnExample
      ⟨"SELECT * FROM t".data, Except.ok (), []⟩).2.1 "SELECT".data
      ["*".data, "FROM".data, "t".data] (by decide) (by decide)).1
  · exact ((C10_execute_dispatch sqliteConnExample
      ⟨"CREATE TABLE u(x int)".data, Except.ok (), []⟩).2.2 "CREATE".data
      ["TABLE".data, "u(x".data, "int)".data] (by decide) (by decide)).2 rfl

end SidhuLabs
